import Mathlib

/-!
Shallow embedding of `src/festim_model/compare_1d_2d.py` (the `prop_errors`
function and its module context), for checking the specification's claims.

Modelling conventions:
* Real-valued quantities are modelled as rationals `ℚ` (field arithmetic;
  division is Lean's total division, which never arises at zero in the
  statements below except where explicitly hypothesised away).
* The material database lookups `flibe_diffusivity.value(temp).magnitude`
  and `flibe_solubility.value(temp).magnitude` (the external
  `h_transport_materials` library, an out-of-scope collaborator) are opaque
  functions `ℚ → ℚ`, passed as parameters.
* `downstream_flux_salt` (imported from `festim_model_copy`, an external
  closed-form analytical model treated as given) is an opaque function
  `t → P_up → L → permeability → D → flux`, passed as a parameter.
* `scipy.optimize.curve_fit` (external solver) is a parameter taking the
  model function, `xdata`, `ydata` and the initial guess `p0`; `some props`
  models a successful return of the optimal parameter pair and `none`
  models the solver raising an exception.  The covariance output of
  `curve_fit` is unused by the source and omitted.
* The returned Python dict is modelled as a partial map `String → Option ℚ`
  with exactly the three keys of the source's dict literal.
* The `plot` flag only triggers matplotlib side effects in the source
  (lines 64-75); the returned dict is built independently of it, so the
  value-level model takes the flag and ignores it.
-/

/-- The dictionary literal returned by `prop_errors` (source line 76):
`{"diffusivity error": ..., "solubility error": ..., "permeability error": ...}`. -/
def errs_dict (diff_error sol_error perm_error : ℚ) : String → Option ℚ := fun key =>
  if key = "diffusivity error" then some diff_error
  else if key = "solubility error" then some sol_error
  else if key = "permeability error" then some perm_error
  else none

/-- Embedding of `prop_errors` (source lines 36-76).

Arguments mirror the module-level context and the Python signature:
`flibe_permeability` is the module constant of line 33 (in scope for the
function body), `flibe_diffusivity` / `flibe_solubility` are the reference
lookups of lines 31-32 (as temperature → magnitude), `downstream_flux_salt`
is the imported analytical model, `curve_fit` the external solver, then the
Python parameters `flux, times, salt_thickness, temp, P_up, plot`.

Body, line by line:
* line 50: `guess = (S(temp)*D(temp), D(temp))`;
* line 54: `props, cov = curve_fit(lambda t, permeability, D:
  downstream_flux_salt(t, P_up, salt_thickness, permeability, D), times,
  np.abs(flux), guess)` — solver failure (exception) propagates as `none`;
* line 57: `perm = D(temp) * S(temp)`;
* line 58: `sol = props[0] / props[1]`;
* lines 61-63: the three error formulas;
* line 76: the returned dict. -/
def prop_errors (flibe_permeability : ℚ) (flibe_diffusivity flibe_solubility : ℚ → ℚ)
    (downstream_flux_salt : ℚ → ℚ → ℚ → ℚ → ℚ → ℚ)
    (curve_fit : (ℚ → ℚ → ℚ → ℚ) → List ℚ → List ℚ → ℚ × ℚ → Option (ℚ × ℚ))
    (flux times : List ℚ) (salt_thickness temp P_up : ℚ) (plot : Bool) :
    Option (String → Option ℚ) :=
  let guess := (flibe_solubility temp * flibe_diffusivity temp, flibe_diffusivity temp)
  match curve_fit
      (fun t permeability D => downstream_flux_salt t P_up salt_thickness permeability D)
      times (flux.map fun x => |x|) guess with
  | none => none
  | some props =>
    let perm := flibe_diffusivity temp * flibe_solubility temp
    let sol := props.1 / props.2
    let diff_error := (flibe_diffusivity temp - props.2) / flibe_diffusivity temp * 100
    let sol_error := (flibe_solubility temp - sol) / flibe_solubility temp * 100
    let perm_error := (perm - props.1) / perm * 100
    some (errs_dict diff_error sol_error perm_error)

/-- Unfolding lemma: `prop_errors` is exactly "call the external solver on
`times`, `|flux|` and the line-50 guess, then post-process the fitted pair
into the three-error dictionary"; the only source of failure is the solver. -/
theorem prop_errors_unfold (fp : ℚ) (fD fS : ℚ → ℚ)
    (dfs : ℚ → ℚ → ℚ → ℚ → ℚ → ℚ)
    (cf : (ℚ → ℚ → ℚ → ℚ) → List ℚ → List ℚ → ℚ × ℚ → Option (ℚ × ℚ))
    (flux times : List ℚ) (th temp pup : ℚ) (b : Bool) :
    prop_errors fp fD fS dfs cf flux times th temp pup b =
      Option.map (fun props => errs_dict
          ((fD temp - props.2) / fD temp * 100)
          ((fS temp - props.1 / props.2) / fS temp * 100)
          ((fD temp * fS temp - props.1) / (fD temp * fS temp) * 100))
        (cf (fun t permeability D => dfs t pup th permeability D)
          times (flux.map fun x => |x|) (fS temp * fD temp, fD temp)) := by
  cases h : cf (fun t permeability D => dfs t pup th permeability D)
      times (flux.map fun x => |x|) (fS temp * fD temp, fD temp) with
  | none => simp [prop_errors, h]
  | some props => simp [prop_errors, h]

/-- C1: for each quantity X in {diffusivity, solubility, permeability}, the
error reported by `prop_errors` is `(reference_X(T) − fitted_X) /
reference_X(T) × 100`, signed, where the reference permeability is the
recomputed product `reference_diffusivity(T) × reference_solubility(T)`
(line 57's `perm`): in all three formulas, the permeability one included,
the reference value is the first operand and the denominator, and the
fitted value (`props[1]`, derived `props[0]/props[1]`, `props[0]`
respectively) is subtracted from it. -/
theorem prop_errors_reference_first_errors (fp : ℚ) (fD fS : ℚ → ℚ)
    (dfs : ℚ → ℚ → ℚ → ℚ → ℚ → ℚ)
    (cf : (ℚ → ℚ → ℚ → ℚ) → List ℚ → List ℚ → ℚ × ℚ → Option (ℚ × ℚ))
    (flux times : List ℚ) (th temp pup : ℚ) (b : Bool) (props : ℚ × ℚ)
    (h : cf (fun t permeability D => dfs t pup th permeability D)
      times (flux.map fun x => |x|) (fS temp * fD temp, fD temp) = some props) :
    prop_errors fp fD fS dfs cf flux times th temp pup b =
      some (errs_dict
        ((fD temp - props.2) / fD temp * 100)
        ((fS temp - props.1 / props.2) / fS temp * 100)
        ((fD temp * fS temp - props.1) / (fD temp * fS temp) * 100)) := by
  rw [prop_errors_unfold, h]
  rfl

/-- Witness for C1: a concrete run with reference lookups `D = 2`, `S = 3`
and a solver returning the fitted pair `(4, 5)`; the reported errors are
`(2−5)/2·100`, `(3−4/5)/3·100` and `(6−4)/6·100`. -/
theorem prop_errors_reference_first_errors_witness :
    prop_errors 9 (fun _ => 2) (fun _ => 3) (fun _ _ _ _ _ => 0)
      (fun _ _ _ _ => some (4, 5)) [1, -2] [0, 1] 1 800 1000 false =
      some (errs_dict ((2 - 5) / 2 * 100) ((3 - 4 / 5) / 3 * 100)
        ((2 * 3 - 4) / (2 * 3) * 100)) :=
  prop_errors_reference_first_errors 9 (fun _ => 2) (fun _ => 3) (fun _ _ _ _ _ => 0)
    (fun _ _ _ _ => some (4, 5)) [1, -2] [0, 1] 1 800 1000 false (4, 5) rfl

/-- C2 counterexample: the claim says a successful call returns the fitted
transport coefficients themselves in addition to the error percentages.  In
the source (line 76) `prop_errors` returns only the three-error dictionary:
with reference lookups `D = 2`, `S = 3` and the solver converging to the
fitted pair `(5, 7)`, the entire return value is the dictionary with values
`−250`, `1600/21`, `50/3`; there is no entry under any coefficient-like key,
and none of the returned numbers is the fitted permeability `5` or the
fitted diffusivity `7`. -/
theorem prop_errors_coefficients_not_returned_cex :
    prop_errors 9 (fun _ => 2) (fun _ => 3) (fun _ _ _ _ _ => 0)
        (fun _ _ _ _ => some (5, 7)) [1] [0] 1 800 1000 false =
      some (errs_dict (-250) (1600 / 21) (50 / 3)) ∧
    errs_dict (-250) (1600 / 21) (50 / 3) "permeability" = none ∧
    errs_dict (-250) (1600 / 21) (50 / 3) "diffusivity" = none ∧
    errs_dict (-250) (1600 / 21) (50 / 3) "solubility" = none ∧
    ((-250 : ℚ) ≠ 5 ∧ (1600 / 21 : ℚ) ≠ 5 ∧ (50 / 3 : ℚ) ≠ 5) ∧
    ((-250 : ℚ) ≠ 7 ∧ (1600 / 21 : ℚ) ≠ 7 ∧ (50 / 3 : ℚ) ≠ 7) := by
  refine ⟨?_, rfl, rfl, rfl, ⟨by norm_num, by norm_num, by norm_num⟩,
    ⟨by norm_num, by norm_num, by norm_num⟩⟩
  rw [prop_errors_unfold]
  norm_num

/-- C2 (amended): every successful call returns exactly the `ErrorReport`
dictionary of the three signed percentage errors computed from the fitted
pair; the fitted coefficients are consumed internally (lines 58, 61-63) but
are not part of the return value, and the dictionary has no entry under any
other key. -/
theorem prop_errors_only_error_report (fp : ℚ) (fD fS : ℚ → ℚ)
    (dfs : ℚ → ℚ → ℚ → ℚ → ℚ → ℚ)
    (cf : (ℚ → ℚ → ℚ → ℚ) → List ℚ → List ℚ → ℚ × ℚ → Option (ℚ × ℚ))
    (flux times : List ℚ) (th temp pup : ℚ) (b : Bool) :
    (prop_errors fp fD fS dfs cf flux times th temp pup b =
      Option.map (fun props => errs_dict
          ((fD temp - props.2) / fD temp * 100)
          ((fS temp - props.1 / props.2) / fS temp * 100)
          ((fD temp * fS temp - props.1) / (fD temp * fS temp) * 100))
        (cf (fun t permeability D => dfs t pup th permeability D)
          times (flux.map fun x => |x|) (fS temp * fD temp, fD temp))) ∧
    (∀ d s p key, key ≠ "diffusivity error" → key ≠ "solubility error" →
      key ≠ "permeability error" → errs_dict d s p key = none) := by
  refine ⟨prop_errors_unfold fp fD fS dfs cf flux times th temp pup b,
    fun d s p key h1 h2 h3 => ?_⟩
  simp [errs_dict, h1, h2, h3]

/-- Witness for C2's amended theorem at a concrete instance: the returned
dictionary holds nothing outside the three error keys. -/
theorem prop_errors_only_error_report_witness :
    (prop_errors 9 (fun _ => 2) (fun _ => 3) (fun _ _ _ _ _ => 0)
        (fun _ _ _ _ => some (5, 7)) [1, 2] [0, 1] 1 800 1000 false =
      Option.map (fun props => errs_dict
          ((2 - props.2) / 2 * 100)
          ((3 - props.1 / props.2) / 3 * 100)
          ((2 * 3 - props.1) / (2 * 3) * 100))
        (some (5, 7))) ∧
    errs_dict 1 2 3 "fitted permeability" = none :=
  ⟨(prop_errors_only_error_report 9 (fun _ => 2) (fun _ => 3) (fun _ _ _ _ _ => 0)
      (fun _ _ _ _ => some (5, 7)) [1, 2] [0, 1] 1 800 1000 false).1,
    (prop_errors_only_error_report 9 (fun _ => 2) (fun _ => 3) (fun _ _ _ _ _ => 0)
      (fun _ _ _ _ => some (5, 7)) [1, 2] [0, 1] 1 800 1000 false).2
      1 2 3 "fitted permeability" (by decide) (by decide) (by decide)⟩

/-- C3 counterexample: the claim says the operation fails whenever
thickness, pressure, or temperature is non-positive, producing no fit
result.  The source performs no input validation at all: with thickness
`−1`, temperature `−5` and pressure `0` (all non-positive) and a solver that
converges (here to the pair `(1, 1)`; nothing in `prop_errors` prevents the
external solver from succeeding on such inputs, which are passed through
unchecked), `prop_errors` returns a full error report. -/
theorem prop_errors_nonpositive_inputs_cex :
    prop_errors 9 (fun _ => 2) (fun _ => 3) (fun _ _ _ _ _ => 0)
        (fun _ _ _ _ => some (1, 1)) [1, 2] [0, 1] (-1) (-5) 0 false =
      some (errs_dict 50 (200 / 3) (250 / 3)) := by
  rw [prop_errors_unfold]
  norm_num

/-- C3 (amended): `prop_errors` performs no input validation: non-positive
thickness, temperature and pressure are passed unchecked into the closure
handed to the solver, and a result is produced whenever the external solver
returns a parameter pair; a series with fewer than 2 points is likewise
passed to the solver unchecked, so any failure on short input arises inside
the external solver (scipy raises its own error), not as a dedicated
`InsufficientDataError` — no such error type exists in the code. -/
theorem prop_errors_no_input_validation (fp : ℚ) (fD fS : ℚ → ℚ)
    (dfs : ℚ → ℚ → ℚ → ℚ → ℚ → ℚ)
    (cf : (ℚ → ℚ → ℚ → ℚ) → List ℚ → List ℚ → ℚ × ℚ → Option (ℚ × ℚ))
    (flux times : List ℚ) (th temp pup : ℚ) (b : Bool) (props : ℚ × ℚ)
    (hth : th ≤ 0) (htemp : temp ≤ 0) (hpup : pup ≤ 0)
    (h : cf (fun t permeability D => dfs t pup th permeability D)
      times (flux.map fun x => |x|) (fS temp * fD temp, fD temp) = some props) :
    (prop_errors fp fD fS dfs cf flux times th temp pup b).isSome = true := by
  rw [prop_errors_unfold, h]
  rfl

/-- Witness for C3's amended theorem: all three scalar inputs non-positive,
solver succeeds, a report is produced. -/
theorem prop_errors_no_input_validation_witness :
    (prop_errors 9 (fun _ => 2) (fun _ => 3) (fun _ _ _ _ _ => 0)
      (fun _ _ _ _ => some (1, 1)) [4] [0] (-1) (-5) 0 false).isSome = true :=
  prop_errors_no_input_validation 9 (fun _ => 2) (fun _ => 3) (fun _ _ _ _ _ => 0)
    (fun _ _ _ _ => some (1, 1)) [4] [0] (-1) (-5) 0 false (1, 1)
    (by norm_num) (by norm_num) (by norm_num) rfl

/-- C4 counterexample: the claim says an all-zero flux series makes the fit
fail rather than return a spurious result.  `prop_errors` contains no
degeneracy check: the all-zero series `[0, 0, 0]` is handed to the solver
as-is, and with a solver that converges (here to the spurious pair
`(1, 4)`, far from the references `D = 2`, `S = 3`), a full error report is
returned. -/
theorem prop_errors_all_zero_flux_cex :
    prop_errors 9 (fun _ => 2) (fun _ => 3) (fun _ _ _ _ _ => 0)
        (fun _ _ _ _ => some (1, 4)) [0, 0, 0] [0, 1, 2] 1 800 1000 false =
      some (errs_dict (-100) (275 / 3) (250 / 3)) := by
  rw [prop_errors_unfold]
  norm_num

/-- C4 (amended): `prop_errors` applies no degenerate-input guard: an
all-zero flux series reaches the external solver unchanged (its elementwise
absolute value is again the zero series), and whenever the solver returns a
parameter pair a report is produced; rejection of degenerate input can only
come from the external solver itself. -/
theorem prop_errors_all_zero_flux_no_guard (fp : ℚ) (fD fS : ℚ → ℚ)
    (dfs : ℚ → ℚ → ℚ → ℚ → ℚ → ℚ)
    (cf : (ℚ → ℚ → ℚ → ℚ) → List ℚ → List ℚ → ℚ × ℚ → Option (ℚ × ℚ))
    (times : List ℚ) (th temp pup : ℚ) (b : Bool) (n : ℕ) (props : ℚ × ℚ)
    (h : cf (fun t permeability D => dfs t pup th permeability D)
      times (List.replicate n (0 : ℚ)) (fS temp * fD temp, fD temp) = some props) :
    (prop_errors fp fD fS dfs cf (List.replicate n (0 : ℚ))
      times th temp pup b).isSome = true := by
  rw [prop_errors_unfold]
  have hz : (List.replicate n (0 : ℚ)).map (fun x => |x|) = List.replicate n (0 : ℚ) := by
    simp
  rw [hz, h]
  rfl

/-- Witness for C4's amended theorem: three zero flux points, solver
converges, a report is produced. -/
theorem prop_errors_all_zero_flux_no_guard_witness :
    (prop_errors 9 (fun _ => 2) (fun _ => 3) (fun _ _ _ _ _ => 0)
      (fun _ _ _ _ => some (1, 4)) (List.replicate 3 (0 : ℚ)) [0, 1, 2]
      1 800 1000 false).isSome = true :=
  prop_errors_all_zero_flux_no_guard 9 (fun _ => 2) (fun _ => 3) (fun _ _ _ _ _ => 0)
    (fun _ _ _ _ => some (1, 4)) [0, 1, 2] 1 800 1000 false 3 (1, 4) rfl

/-- C5: the round-trip property on the code's side of the solver boundary.
When the observed flux series is exactly the analytical model evaluated at
the reference properties, the least-squares residual vanishes at the
reference pair, so a solver attaining the optimum returns
`(D_ref(T)·S_ref(T), D_ref(T))`; the hypothesis `h` states that outcome.
Then `prop_errors` recovers exactly that pair and all three reported error
percentages are exactly 0 (the fitted-vs-reference comparison introduces no
spurious offset or sign). -/
theorem prop_errors_zero_errors_at_reference (fp : ℚ) (fD fS : ℚ → ℚ)
    (dfs : ℚ → ℚ → ℚ → ℚ → ℚ → ℚ)
    (cf : (ℚ → ℚ → ℚ → ℚ) → List ℚ → List ℚ → ℚ × ℚ → Option (ℚ × ℚ))
    (flux times : List ℚ) (th temp pup : ℚ) (b : Bool)
    (hD : fD temp ≠ 0)
    (h : cf (fun t permeability D => dfs t pup th permeability D)
      times (flux.map fun x => |x|) (fS temp * fD temp, fD temp) =
      some (fD temp * fS temp, fD temp)) :
    prop_errors fp fD fS dfs cf flux times th temp pup b =
      some (errs_dict 0 0 0) := by
  rw [prop_errors_unfold, h]
  have hsol : fD temp * fS temp / fD temp = fS temp := by
    rw [mul_comm, mul_div_assoc, div_self hD, mul_one]
  simp [hsol]

/-- Witness for C5: references `D = 2`, `S = 3`, the solver returning the
reference pair `(6, 2)`; every reported error is exactly 0. -/
theorem prop_errors_zero_errors_at_reference_witness :
    prop_errors 9 (fun _ => 2) (fun _ => 3) (fun _ _ _ _ _ => 0)
      (fun _ _ _ _ => some (6, 2)) [3, 4] [0, 1] 1 700 1000 false =
      some (errs_dict 0 0 0) :=
  prop_errors_zero_errors_at_reference 9 (fun _ => 2) (fun _ => 3)
    (fun _ _ _ _ _ => 0) (fun _ _ _ _ => some (6, 2)) [3, 4] [0, 1] 1 700 1000 false
    (by norm_num) (by norm_num)

/-- C6: the initial guess handed to the nonlinear least-squares solver is
exactly the pair (reference diffusivity(T) × reference solubility(T),
reference diffusivity(T)) — seed permeability first, seed diffusivity
second — for every temperature `T` (and every other argument).  Line 50
writes the product as `S(T)·D(T)`, equal to `D(T)·S(T)` by commutativity. -/
theorem prop_errors_initial_guess (fp : ℚ) (fD fS : ℚ → ℚ)
    (dfs : ℚ → ℚ → ℚ → ℚ → ℚ → ℚ)
    (cf : (ℚ → ℚ → ℚ → ℚ) → List ℚ → List ℚ → ℚ × ℚ → Option (ℚ × ℚ))
    (flux times : List ℚ) (th temp pup : ℚ) (b : Bool) :
    prop_errors fp fD fS dfs cf flux times th temp pup b =
      Option.map (fun props => errs_dict
          ((fD temp - props.2) / fD temp * 100)
          ((fS temp - props.1 / props.2) / fS temp * 100)
          ((fD temp * fS temp - props.1) / (fD temp * fS temp) * 100))
        (cf (fun t permeability D => dfs t pup th permeability D)
          times (flux.map fun x => |x|) (fD temp * fS temp, fD temp)) := by
  rw [prop_errors_unfold, mul_comm (fS temp) (fD temp)]

/-- C7: the derived solubility is definitionally the fitted permeability
divided by the fitted diffusivity (`sol = props[0] / props[1]`, line 58;
never an independent fit parameter), and the reported solubility error is
computed from exactly this quotient. -/
theorem prop_errors_derived_solubility (fp : ℚ) (fD fS : ℚ → ℚ)
    (dfs : ℚ → ℚ → ℚ → ℚ → ℚ → ℚ)
    (cf : (ℚ → ℚ → ℚ → ℚ) → List ℚ → List ℚ → ℚ × ℚ → Option (ℚ × ℚ))
    (flux times : List ℚ) (th temp pup : ℚ) (b : Bool) (props : ℚ × ℚ)
    (h : cf (fun t permeability D => dfs t pup th permeability D)
      times (flux.map fun x => |x|) (fS temp * fD temp, fD temp) = some props) :
    Option.bind (prop_errors fp fD fS dfs cf flux times th temp pup b)
      (fun r => r "solubility error") =
      some ((fS temp - props.1 / props.2) / fS temp * 100) := by
  rw [prop_errors_unfold, h]
  rfl

/-- Witness for C7: fitted pair `(4, 5)`, references `D = 2`, `S = 3`; the
solubility error entry is `(3 − 4/5)/3·100`. -/
theorem prop_errors_derived_solubility_witness :
    Option.bind (prop_errors 9 (fun _ => 2) (fun _ => 3) (fun _ _ _ _ _ => 0)
        (fun _ _ _ _ => some (4, 5)) [1, 2] [0, 1] 1 900 1000 false)
      (fun r => r "solubility error") = some ((3 - 4 / 5) / 3 * 100) :=
  prop_errors_derived_solubility 9 (fun _ => 2) (fun _ => 3) (fun _ _ _ _ _ => 0)
    (fun _ _ _ _ => some (4, 5)) [1, 2] [0, 1] 1 900 1000 false (4, 5) rfl

/-- C8: the data handed to the least-squares solver is the elementwise
absolute value of the observed flux (line 54's `np.abs(flux)`), with `P_up`
and `salt_thickness` closed over in the model lambda rather than fit;
consequently the whole result of `prop_errors` is invariant under negating
the flux series elementwise and under replacing it by its elementwise
absolute value. -/
theorem prop_errors_sign_invariant (fp : ℚ) (fD fS : ℚ → ℚ)
    (dfs : ℚ → ℚ → ℚ → ℚ → ℚ → ℚ)
    (cf : (ℚ → ℚ → ℚ → ℚ) → List ℚ → List ℚ → ℚ × ℚ → Option (ℚ × ℚ))
    (flux times : List ℚ) (th temp pup : ℚ) (b : Bool) :
    (prop_errors fp fD fS dfs cf (flux.map fun x => -x) times th temp pup b =
      prop_errors fp fD fS dfs cf flux times th temp pup b) ∧
    (prop_errors fp fD fS dfs cf (flux.map fun x => |x|) times th temp pup b =
      prop_errors fp fD fS dfs cf flux times th temp pup b) := by
  have hneg : (flux.map fun x => -x).map (fun x => |x|) = flux.map fun x => |x| := by
    rw [List.map_map]
    simp [Function.comp]
  have habs : (flux.map fun x => |x|).map (fun x => |x|) = flux.map fun x => |x| := by
    rw [List.map_map]
    simp [Function.comp]
  constructor
  · rw [prop_errors_unfold fp fD fS dfs cf (flux.map fun x => -x) times th temp pup b,
      prop_errors_unfold fp fD fS dfs cf flux times th temp pup b, hneg]
  · rw [prop_errors_unfold fp fD fS dfs cf (flux.map fun x => |x|) times th temp pup b,
      prop_errors_unfold fp fD fS dfs cf flux times th temp pup b, habs]

/-- C9: the module-level database-mean permeability (`flibe_permeability`,
line 33) is never used in `prop_errors` — the result is the same whatever
its value — and the reference permeability entering the permeability error
is recomputed as reference diffusivity(T) × reference solubility(T)
(line 57), so all three errors are anchored to the same reference pair. -/
theorem prop_errors_ignores_flibe_permeability (fp fp' : ℚ) (fD fS : ℚ → ℚ)
    (dfs : ℚ → ℚ → ℚ → ℚ → ℚ → ℚ)
    (cf : (ℚ → ℚ → ℚ → ℚ) → List ℚ → List ℚ → ℚ × ℚ → Option (ℚ × ℚ))
    (flux times : List ℚ) (th temp pup : ℚ) (b : Bool) :
    (prop_errors fp fD fS dfs cf flux times th temp pup b =
      prop_errors fp' fD fS dfs cf flux times th temp pup b) ∧
    (∀ props, cf (fun t permeability D => dfs t pup th permeability D)
        times (flux.map fun x => |x|) (fS temp * fD temp, fD temp) = some props →
      Option.bind (prop_errors fp fD fS dfs cf flux times th temp pup b)
        (fun r => r "permeability error") =
        some ((fD temp * fS temp - props.1) / (fD temp * fS temp) * 100)) := by
  refine ⟨rfl, fun props h => ?_⟩
  rw [prop_errors_unfold, h]
  rfl

/-- Witness for C9: changing the database-mean permeability from `9` to
`123456` leaves the result unchanged, and the permeability error entry is
anchored at the recomputed reference product `2·3`. -/
theorem prop_errors_ignores_flibe_permeability_witness :
    (prop_errors 9 (fun _ => 2) (fun _ => 3) (fun _ _ _ _ _ => 0)
        (fun _ _ _ _ => some (4, 5)) [2] [0] 1 600 1000 false =
      prop_errors 123456 (fun _ => 2) (fun _ => 3) (fun _ _ _ _ _ => 0)
        (fun _ _ _ _ => some (4, 5)) [2] [0] 1 600 1000 false) ∧
    Option.bind (prop_errors 9 (fun _ => 2) (fun _ => 3) (fun _ _ _ _ _ => 0)
        (fun _ _ _ _ => some (4, 5)) [2] [0] 1 600 1000 false)
      (fun r => r "permeability error") =
      some ((2 * 3 - 4) / (2 * 3) * 100) :=
  ⟨(prop_errors_ignores_flibe_permeability 9 123456 (fun _ => 2) (fun _ => 3)
      (fun _ _ _ _ _ => 0) (fun _ _ _ _ => some (4, 5)) [2] [0] 1 600 1000 false).1,
    (prop_errors_ignores_flibe_permeability 9 123456 (fun _ => 2) (fun _ => 3)
      (fun _ _ _ _ _ => 0) (fun _ _ _ _ => some (4, 5)) [2] [0] 1 600 1000 false).2
      (4, 5) rfl⟩

/-- C10: the returned dictionary is built from the fitted pair alone
(lines 57-63) before the `plot` branch, whose body only draws; the return
value of `prop_errors` is therefore the same for any two values of the
`plot` flag (in particular its default `False`), and as a pure function of
its numeric arguments it returns equal dictionaries on the sweep driver's
three identical calls per grid point (lines 211-213), so combining one key
from each call agrees with reading all keys from a single call. -/
theorem prop_errors_plot_flag_independent (fp : ℚ) (fD fS : ℚ → ℚ)
    (dfs : ℚ → ℚ → ℚ → ℚ → ℚ → ℚ)
    (cf : (ℚ → ℚ → ℚ → ℚ) → List ℚ → List ℚ → ℚ × ℚ → Option (ℚ × ℚ))
    (flux times : List ℚ) (th temp pup : ℚ) (b b' : Bool) :
    prop_errors fp fD fS dfs cf flux times th temp pup b =
      prop_errors fp fD fS dfs cf flux times th temp pup b' := rfl
